import Mathlib

/-!
# Verification of the FISCO-BCOS p2p Session layer (`libp2p/Session.h`)

Shallow embedding of the `dev::p2p::Session` class and its helpers.

The repository ships only the header `Session.h`; the inline member
functions (`isFramingAllowedForVersion`, `isConnected`, `isFramingEnabled`,
`maxFrameSize`, `capabilities`, `addNote`, the `capabilityFromSession`
template, and the member default initialisers `m_dropped = false`,
`m_CABaseData = nullptr`) are embedded directly from the source.  Member
functions whose bodies live in the (absent) `Session.cpp`, and the
`RLPXFrameWriter`/`RLPXFrameReader` classes, are modelled from the
specification; each such definition carries a doc comment starting with
`Modelled from the spec:`.

Bytes are modelled as `Nat`, C++ pointers as `Option Nat` (null = `none`),
`std::map` as an association list with unique keys.
-/

namespace P2P

/-- `DisconnectReason` enumeration (spec section 6: closed enumeration including
requested-by-peer, TCP error, bad protocol, ping timeout, duplicate peer,
useless peer, too-many-peers, client quitting). -/
inductive DisconnectReason where
  | DisconnectRequested
  | TCPError
  | BadProtocol
  | PingTimeout
  | DuplicatePeer
  | UselessPeer
  | TooManyPeers
  | ClientQuit
  deriving DecidableEq, Repr

/-- Session lifecycle states (spec section 4.1:
`Starting → Active → Disconnecting → Closed`). -/
inductive LifecycleState where
  | Starting
  | Active
  | Disconnecting
  | Closed
  deriving DecidableEq, Repr

/-- `RLPXSocketApi`: the transport socket, consumed as an abstract stream; the
only observable the Session reads from it is `isConnected()`. -/
structure RLPXSocketApi where
  isConnected : Bool
  deriving DecidableEq, Repr

/-- `PeerSessionInfo m_info`: dynamic information about the peer — the
negotiated protocol version, the rating score kept on the info blob
(spec section 4.5), and free-form notes (`m_info.notes`). -/
structure PeerSessionInfo where
  protocolVersion : Nat
  rating : Int
  notes : List (String × String)
  deriving DecidableEq, Repr

/-- `CapDesc`: capability descriptor `(name, version)` — the key of the
capability table `std::map<CapDesc, std::shared_ptr<Capability>>`. -/
abbrev CapDesc := String × Nat

/-- A registered `Capability` handler.  `tag` records the C++ dynamic type of
the handler object (which concrete subclass of `Capability` it is); `data`
stands for the rest of the object.  `std::static_pointer_cast` never consults
the dynamic type, which is what the `tag` field lets us state. -/
structure Capability where
  tag : Nat
  data : Nat
  deriving DecidableEq, Repr

/-- Embedding of `dev::p2p::Session` (fields of `Session.h` lines 171-214).
The fields `lifecycle`, `disconnectReason`, `disconnectPacketAttempts`,
`dropCount` and `closeScheduled` are the observables of the spec's
lifecycle state machine (section 4.1) and of its testable properties
(section 8: "exactly one disconnect packet attempt and exactly one terminal
drop"), modelled from the spec because `Session.cpp` is not part of the
sources; the remaining fields come from the header, with the header's
default member initialisers (`m_dropped = false`, `m_CABaseData = nullptr`). -/
structure Session where
  m_socket : RLPXSocketApi
  m_info : PeerSessionInfo
  m_dropped : Bool := false
  m_capabilities : List (CapDesc × Capability) := []
  m_writeQueue : List (Nat × List Nat) := []
  m_incoming : List Nat := []
  m_framing : List Nat := []
  m_CABaseData : Option Nat := none
  lifecycle : LifecycleState := LifecycleState.Starting
  disconnectReason : Option DisconnectReason := none
  disconnectPacketAttempts : Nat := 0
  dropCount : Nat := 0
  closeScheduled : Bool := false
  deriving DecidableEq, Repr

/-- A freshly constructed session: only the socket and the peer info are
supplied to the constructor; every other field takes the header's default. -/
def mkSession (sock : RLPXSocketApi) (info : PeerSessionInfo) : Session :=
  { m_socket := sock, m_info := info }

/-- `Session::isFramingAllowedForVersion` (Session.h line 100):
`return _version > 4;`. -/
def isFramingAllowedForVersion (version : Nat) : Bool :=
  version > 4

/-- `Session::isFramingEnabled` (Session.h line 206):
`return isFramingAllowedForVersion(m_info.protocolVersion);`. -/
def Session.isFramingEnabled (s : Session) : Bool :=
  isFramingAllowedForVersion s.m_info.protocolVersion

/-- `Session::isConnected` (Session.h line 113):
`return m_socket->isConnected();`. -/
def Session.isConnected (s : Session) : Bool :=
  s.m_socket.isConnected

/-- `Session::maxFrameSize` (Session.h line 207): `return 1024;`. -/
def Session.maxFrameSize (_s : Session) : Nat :=
  1024

/-- `Session::capabilities` (Session.h line 130): `return m_capabilities;`. -/
def Session.capabilities (s : Session) : List (CapDesc × Capability) :=
  s.m_capabilities

/-- `std::map::at` on the capability table: the value stored under `desc`,
or `none` when the key is absent (where C++ throws `std::out_of_range`). -/
def lookupCap (desc : CapDesc) : List (CapDesc × Capability) → Option Capability
  | [] => none
  | (d, c) :: rest => if d = desc then some c else lookupCap desc rest

/-- `capabilityFromSession<PeerCap>` (Session.h lines 217-228).
`_session.capabilities().at({PeerCap::name(), _version})` throws when the
descriptor `(reqName, reqVersion)` is absent; the `catch (...)` turns that
into `nullptr` (`none`).  On a hit, `std::static_pointer_cast<PeerCap>`
converts the stored pointer without any runtime type check, so the stored
handler is returned as-is whatever `reqTag` (the requested handler type
`PeerCap`) is — `reqTag` is never consulted. -/
def capabilityFromSession (reqTag : Nat) (reqName : String) (reqVersion : Nat)
    (s : Session) : Option Capability :=
  let _ := reqTag
  match lookupCap (reqName, reqVersion) s.capabilities with
  | none => none
  | some c => some c

/-- Modelled from the spec: `std::map` assignment used by
`Session::registerCapability` (body not among the sources) — insert the
pair, replacing the entry already stored under the same key ("re-registering
the same descriptor replaces the prior handler (last write wins)"). -/
def insertCap (desc : CapDesc) (c : Capability) :
    List (CapDesc × Capability) → List (CapDesc × Capability)
  | [] => [(desc, c)]
  | (d, c0) :: rest =>
      if d = desc then (desc, c) :: rest else (d, c0) :: insertCap desc c rest

/-- Number of entries of the capability table stored under `desc`. -/
def countKey (desc : CapDesc) : List (CapDesc × Capability) → Nat
  | [] => 0
  | (d, _) :: rest => (if d = desc then 1 else 0) + countKey desc rest

/-- Modelled from the spec: `Session::registerCapability(desc, handler)`
(declared Session.h line 127, body not among the sources) inserts into the
capability table, last write wins, raising no error (section 4.4). -/
def Session.registerCapability (desc : CapDesc) (c : Capability) (s : Session) : Session :=
  { s with m_capabilities := insertCap desc c s.m_capabilities }

/-- Modelled from the spec: `Session::registerFraming(id)` (declared
Session.h line 128) lazily creates the `Framing` entry for a sub-protocol
id — at most one `Framing` per id (section 3). -/
def Session.registerFraming (id : Nat) (s : Session) : Session :=
  if id ∈ s.m_framing then s else { s with m_framing := id :: s.m_framing }

/-- Modelled from the spec: `Session::rating()` (declared Session.h
line 119) reads the integer score kept on the session's info blob
(section 4.5). -/
def Session.rating (s : Session) : Int :=
  s.m_info.rating

/-- Modelled from the spec: `Session::addRating(delta)` (declared Session.h
line 120) adds the delta to the score on the info blob — purely additive,
no clamping or decay (section 4.5). -/
def Session.addRating (d : Int) (s : Session) : Session :=
  { s with m_info := { s.m_info with rating := s.m_info.rating + d } }

/-- `Session::addNote` (Session.h line 122): `m_info.notes[_k] = _v;`,
modelled as assignment into the notes association list. -/
def insertNote (k v : String) : List (String × String) → List (String × String)
  | [] => [(k, v)]
  | (k0, v0) :: rest =>
      if k0 = k then (k, v) :: rest else (k0, v0) :: insertNote k v rest

/-- `Session::addNote` wrapper on the session state. -/
def Session.addNote (k v : String) (s : Session) : Session :=
  { s with m_info := { s.m_info with notes := insertNote k v s.m_info.notes } }

/-- Modelled from the spec: `Session::getCABaseData()` (declared Session.h
line 138) returns the stored custom auth-data pointer — `m_CABaseData`,
which the header initialises to `nullptr` (Session.h line 211). -/
def Session.getCABaseData (s : Session) : Option Nat :=
  s.m_CABaseData

/-- Modelled from the spec: `Session::saveCABaseData(p)` (declared Session.h
line 139) stores the single custom auth-data pointer on the session
(section 6: "the Session stores exactly one such pointer"). -/
def Session.saveCABaseData (p : Nat) (s : Session) : Session :=
  { s with m_CABaseData := some p }

/-- Modelled from the spec: `Session::disconnect(reason)` (declared
Session.h line 107; section 4.1): "the first call records the reason, sends
a best-effort disconnect control packet, transitions to Disconnecting, and
schedules socket closure; subsequent calls while already
Disconnecting/Closed are no-ops". -/
def Session.disconnect (r : DisconnectReason) (s : Session) : Session :=
  if s.lifecycle = LifecycleState.Disconnecting ∨ s.lifecycle = LifecycleState.Closed then
    s
  else
    { s with
      lifecycle := LifecycleState.Disconnecting
      disconnectReason := some r
      disconnectPacketAttempts := s.disconnectPacketAttempts + 1
      closeScheduled := true }

/-- Modelled from the spec: `Session::drop(reason)` (declared Session.h
line 148; section 4.1): the internal terminal action invoked once
outstanding I/O has unwound — it sets the dropped flag and moves the
session to Closed; a session already dropped is left untouched
("exactly one terminal drop", section 8). -/
def Session.drop (_r : DisconnectReason) (s : Session) : Session :=
  if s.m_dropped then
    s
  else
    { s with
      m_dropped := true
      lifecycle := LifecycleState.Closed
      dropCount := s.dropCount + 1 }

/-- Modelled from the spec: `Session::send(msg, protocolID)` (declared
Session.h line 145; section 4.2): "validates the payload is non-empty and
the Session is Active; it appends an OutboundEntry to a queue"; a dropped
session must no-op (section 3 invariant: "all subsequent send/read
operations must no-op or fail fast"). -/
def Session.send (pid : Nat) (payload : List Nat) (s : Session) : Session :=
  if payload = [] ∨ s.lifecycle ≠ LifecycleState.Active ∨ s.m_dropped then
    s
  else
    { s with m_writeQueue := s.m_writeQueue ++ [(pid, payload)] }

/-- Modelled from the spec: the read completion path (`Session::doRead`,
declared Session.h line 151; sections 4.3 and 3): a dropped session fails
fast, discarding the bytes without buffering or dispatching them; otherwise
the bytes are appended to the ingress buffer `m_incoming`. -/
def Session.onRead (bytes : List Nat) (s : Session) : Session :=
  if s.m_dropped then
    s
  else
    { s with m_incoming := s.m_incoming ++ bytes }

/-- Modelled from the spec: the scheduled socket closure (section 4.1:
disconnect "schedules socket closure"; the close lands on the transport
later, once in-flight I/O unwinds). -/
def Session.closeSocket (s : Session) : Session :=
  { s with m_socket := { isConnected := false } }

/-- The operations a Session exposes after construction, used to state
state-machine invariants quantified over every operation. -/
inductive SessionOp where
  | disconnect (r : DisconnectReason)
  | drop (r : DisconnectReason)
  | send (pid : Nat) (payload : List Nat)
  | onRead (bytes : List Nat)
  | addRating (d : Int)
  | registerCapability (desc : CapDesc) (c : Capability)
  | registerFraming (id : Nat)
  | saveCABaseData (p : Nat)
  | addNote (k v : String)
  | closeSocket
  deriving DecidableEq, Repr

/-- Dispatch of one operation on the session state. -/
def Session.applyOp (op : SessionOp) (s : Session) : Session :=
  match op with
  | SessionOp.disconnect r => s.disconnect r
  | SessionOp.drop r => s.drop r
  | SessionOp.send pid payload => s.send pid payload
  | SessionOp.onRead bytes => s.onRead bytes
  | SessionOp.addRating d => s.addRating d
  | SessionOp.registerCapability desc c => s.registerCapability desc c
  | SessionOp.registerFraming id => s.registerFraming id
  | SessionOp.saveCABaseData p => s.saveCABaseData p
  | SessionOp.addNote k v => s.addNote k v
  | SessionOp.closeSocket => s.closeSocket

/-- Fuel-driven worker for the frame splitter: `fuel` bounds the number of
emitted frames (one byte of the message is consumed per frame as long as
`F > 0`, so `fuel = msg.length` is always enough). -/
def frameSplitAux : Nat → Nat → List Nat → List (List Nat)
  | 0, _, _ => []
  | _ + 1, _, [] => []
  | fuel + 1, F, b :: rest => (b :: rest).take F :: frameSplitAux fuel F ((b :: rest).drop F)

/-- Modelled from the spec: the `RLPXFrameWriter` held by a
`Session::Framing` (Session.h lines 195-201; the writer class itself is not
among the sources) splits one outbound message into consecutive fixed-size
frames of at most `F` bytes each ("each message is split into fixed-size
(default 1024-byte) frames"). -/
def frameSplit (F : Nat) (msg : List Nat) : List (List Nat) :=
  frameSplitAux msg.length F msg

/-- Modelled from the spec: the frame writer tags every emitted frame with
the sub-protocol id of its `Framing` ("frames tagged with a sub-protocol
id"). -/
def frameWriterEmit (pid F : Nat) (msg : List Nat) : List (Nat × List Nat) :=
  (frameSplit F msg).map (fun c => (pid, c))

/-- Modelled from the spec: the matching `RLPXFrameReader` keeps one
reassembly buffer per sub-protocol id and concatenates, in arrival order,
the payloads of the frames tagged with its id ("reassembled by the
receiver"). -/
def frameReaderReassemble (pid : Nat) (frames : List (Nat × List Nat)) : List Nat :=
  ((frames.filter (fun f => f.1 = pid)).map Prod.snd).flatten

/-- The 4096-byte payload of the spec's scenario (section 8). -/
def payload4096 : List Nat := List.replicate 4096 42

/-- A concrete session used by witnesses: connected socket, protocol
version 5, rating 0. -/
def session0 : Session :=
  mkSession ⟨true⟩ ⟨5, 0, []⟩

/-- `session0` once started (spec section 4.1: `start()` moves the session
to Active). -/
def session0Active : Session :=
  { session0 with lifecycle := LifecycleState.Active }

/-- A session holding one capability: descriptor `("eth", 1)`, handler of
dynamic type tag `0`. -/
def sessionWithEth : Session :=
  { session0 with m_capabilities := [(("eth", 1), ⟨0, 0⟩)] }

/-- A session whose `m_dropped` flag is already true while its socket is
still connected (the window between `drop()` and the actual closure). -/
def sessionDropped : Session :=
  { session0 with m_dropped := true, lifecycle := LifecycleState.Closed, dropCount := 1 }

/-!  ## Theorems  -/

theorem frameSplitAux_flatten (fuel F : Nat) (hF : 0 < F) :
    ∀ msg : List Nat, msg.length ≤ fuel → (frameSplitAux fuel F msg).flatten = msg := by
  induction fuel with
  | zero =>
    intro msg hlen
    have : msg = [] := List.eq_nil_of_length_eq_zero (Nat.le_zero.mp hlen)
    subst this
    rfl
  | succ n ih =>
    intro msg hlen
    match msg with
    | [] => rfl
    | b :: rest =>
      have hdrop : ((b :: rest).drop F).length ≤ n := by
        rw [List.length_drop]
        have hpos : 0 < (b :: rest).length := by simp
        have := Nat.sub_lt hpos hF
        omega
      calc (frameSplitAux (n + 1) F (b :: rest)).flatten
          = (b :: rest).take F ++ (frameSplitAux n F ((b :: rest).drop F)).flatten := by
            simp [frameSplitAux]
        _ = (b :: rest).take F ++ (b :: rest).drop F := by rw [ih _ hdrop]
        _ = b :: rest := List.take_append_drop F (b :: rest)

/-- Every frame the splitter emits holds at most `F` bytes. -/
theorem frameSplitAux_mem_length (fuel F : Nat) :
    ∀ msg frame, frame ∈ frameSplitAux fuel F msg → frame.length ≤ F := by
  induction fuel with
  | zero => intro msg frame h; simp [frameSplitAux] at h
  | succ n ih =>
    intro msg frame h
    match msg with
    | [] => simp [frameSplitAux] at h
    | b :: rest =>
      simp only [frameSplitAux, List.mem_cons] at h
      rcases h with h | h
      · subst h
        simp
      · exact ih _ _ h

/-- One step of the ceiling-division count: consuming `F` bytes of a
non-empty message accounts for exactly one frame. -/
theorem ceilDiv_step (len F : Nat) (hF : 0 < F) (hlen : 0 < len) :
    (len - F + F - 1) / F + 1 = (len + F - 1) / F := by
  rcases Nat.le_total len F with hle | hle
  · have h1 : len - F = 0 := Nat.sub_eq_zero_of_le hle
    rw [h1]
    rw [Nat.div_eq_of_lt (by omega : 0 + F - 1 < F)]
    rw [Nat.div_eq_of_lt_le (by omega : 1 * F ≤ len + F - 1) (by omega : len + F - 1 < (1 + 1) * F)]
  · have h1 : len - F + F - 1 = len - 1 := by omega
    have h2 : len - 1 + F = len + F - 1 := by omega
    rw [h1, ← Nat.add_div_right (len - 1) hF, h2]

/-- With `F > 0`, the splitter emits exactly `⌈len/F⌉` frames. -/
theorem frameSplitAux_length (fuel F : Nat) (hF : 0 < F) :
    ∀ msg : List Nat, msg.length ≤ fuel →
      (frameSplitAux fuel F msg).length = (msg.length + F - 1) / F := by
  induction fuel with
  | zero =>
    intro msg hlen
    have : msg = [] := List.eq_nil_of_length_eq_zero (Nat.le_zero.mp hlen)
    subst this
    simp [frameSplitAux, Nat.div_eq_of_lt (by omega : F - 1 < F)]
  | succ n ih =>
    intro msg hlen
    match msg with
    | [] => simp [frameSplitAux, Nat.div_eq_of_lt (by omega : F - 1 < F)]
    | b :: rest =>
      have hlen1 : 0 < (b :: rest).length := by simp
      have hdrop : ((b :: rest).drop F).length ≤ n := by
        rw [List.length_drop]
        have := Nat.sub_lt hlen1 hF
        omega
      have hrec := ih ((b :: rest).drop F) hdrop
      rw [List.length_drop] at hrec
      simp only [frameSplitAux, List.length_cons, hrec]
      exact ceilDiv_step (rest.length + 1) F hF (by omega)

/-- Reassembling the writer's own output with the matching reader id
concatenates exactly the emitted chunks. -/
theorem reassemble_emit (pid F : Nat) (msg : List Nat) :
    frameReaderReassemble pid (frameWriterEmit pid F msg) = (frameSplit F msg).flatten := by
  unfold frameReaderReassemble frameWriterEmit
  induction frameSplit F msg with
  | nil => rfl
  | cons c cs ih => simp_all

/-- Splitting a message with the frame writer and reassembling the emitted
frames with the matching reader restores the message byte for byte. -/
theorem writer_reader_roundtrip (pid F : Nat) (msg : List Nat) (hF : 0 < F) :
    frameReaderReassemble pid (frameWriterEmit pid F msg) = msg := by
  rw [reassemble_emit]
  exact frameSplitAux_flatten msg.length F hF msg le_rfl

/-- C1: framing is enabled exactly for negotiated protocol versions
strictly greater than 4: `isFramingAllowedForVersion(v)` is true iff `v > 4`,
and `isFramingEnabled()` is true iff the session's stored protocol version
is `> 4`. -/
theorem claim_C1 (v : Nat) (s : Session) :
    (isFramingAllowedForVersion v = true ↔ 4 < v) ∧
    (s.isFramingEnabled = true ↔ 4 < s.m_info.protocolVersion) := by
  constructor
  · simp [isFramingAllowedForVersion]
  · simp [Session.isFramingEnabled, isFramingAllowedForVersion]

/-- C2: frame split / reassembly round-trips byte for byte for every message
and every positive frame size; with frame size 1024 the 4096-byte scenario
payload is emitted as 4 frames, each tagged with sub-protocol id 0x10, and
reassembled into the identical 4096-byte payload. -/
theorem claim_C2 (pid F : Nat) (msg : List Nat) (hF : 0 < F) :
    frameReaderReassemble pid (frameWriterEmit pid F msg) = msg ∧
    (frameWriterEmit 16 1024 payload4096).length = 4 ∧
    (∀ f ∈ frameWriterEmit 16 1024 payload4096, f.1 = 16) ∧
    frameReaderReassemble 16 (frameWriterEmit 16 1024 payload4096) = payload4096 := by
  refine ⟨writer_reader_roundtrip pid F msg hF, ?_, ?_, ?_⟩
  · have hlen : payload4096.length = 4096 := by
      unfold payload4096
      rw [List.length_replicate]
    have := frameSplitAux_length payload4096.length 1024 (by omega) payload4096 le_rfl
    rw [hlen] at this
    unfold frameWriterEmit frameSplit
    rw [List.length_map, hlen, this]
  · intro f hf
    unfold frameWriterEmit at hf
    obtain ⟨c, _, rfl⟩ := List.mem_map.mp hf
    rfl
  · exact writer_reader_roundtrip 16 1024 payload4096 (by omega)

/-- Witness for C2 at `pid = 7`, `F = 1024`, `msg = [1, 2, 3]`. -/
theorem claim_C2_witness :
    0 < 1024 ∧
    (frameReaderReassemble 7 (frameWriterEmit 7 1024 [1, 2, 3]) = [1, 2, 3] ∧
     (frameWriterEmit 16 1024 payload4096).length = 4 ∧
     (∀ f ∈ frameWriterEmit 16 1024 payload4096, f.1 = 16) ∧
     frameReaderReassemble 16 (frameWriterEmit 16 1024 payload4096) = payload4096) :=
  ⟨by decide, claim_C2 7 1024 [1, 2, 3] (by decide)⟩

/-- C8: `maxFrameSize()` returns 1024 on every session, and every frame the
writer emits when splitting an outbound message at `maxFrameSize()` holds at
most 1024 bytes. -/
theorem claim_C8 (s : Session) (msg frame : List Nat)
    (h : frame ∈ frameSplit s.maxFrameSize msg) :
    s.maxFrameSize = 1024 ∧ frame.length ≤ 1024 := by
  refine ⟨rfl, ?_⟩
  exact frameSplitAux_mem_length msg.length s.maxFrameSize msg frame h

/-- Witness for C8 at `session0` and the 3-byte message `[1, 2, 3]`. -/
theorem claim_C8_witness :
    session0.maxFrameSize = 1024 ∧ ([1, 2, 3] : List Nat).length ≤ 1024 :=
  claim_C8 session0 [1, 2, 3] [1, 2, 3] (by decide)

/-- C3: `disconnect(reason)` is idempotent — on a session already
Disconnecting or Closed it is a no-op; from Active, the first call records
the reason, counts exactly one disconnect packet attempt and schedules
socket closure, a second call changes nothing, and the terminal drop that
follows lands exactly once however often it is retried. -/
theorem claim_C3 (s t : Session) (r r1 r2 rd : DisconnectReason)
    (ht : t.lifecycle = LifecycleState.Disconnecting ∨ t.lifecycle = LifecycleState.Closed)
    (hs : s.lifecycle = LifecycleState.Active) (hd : s.m_dropped = false) :
    t.disconnect r = t ∧
    (s.disconnect r1).disconnect r2 = s.disconnect r1 ∧
    (s.disconnect r1).disconnectReason = some r1 ∧
    (s.disconnect r1).disconnectPacketAttempts = s.disconnectPacketAttempts + 1 ∧
    (s.disconnect r1).closeScheduled = true ∧
    (((s.disconnect r1).drop rd).drop rd).dropCount = s.dropCount + 1 := by
  refine ⟨?_, ?_, ?_, ?_, ?_, ?_⟩
  · simp [Session.disconnect, ht]
  · simp [Session.disconnect, hs]
  · simp [Session.disconnect, hs]
  · simp [Session.disconnect, hs]
  · simp [Session.disconnect, hs]
  · simp [Session.disconnect, Session.drop, hs, hd]

/-- Witness for C3 at `session0Active` (Active, not dropped) and
`sessionDropped` (Closed). -/
theorem claim_C3_witness :
    (sessionDropped.lifecycle = LifecycleState.Disconnecting ∨
      sessionDropped.lifecycle = LifecycleState.Closed) ∧
    session0Active.lifecycle = LifecycleState.Active ∧
    session0Active.m_dropped = false ∧
    (sessionDropped.disconnect DisconnectReason.ClientQuit = sessionDropped ∧
     (session0Active.disconnect DisconnectReason.DisconnectRequested).disconnect
        DisconnectReason.TCPError =
        session0Active.disconnect DisconnectReason.DisconnectRequested ∧
     (session0Active.disconnect DisconnectReason.DisconnectRequested).disconnectReason =
        some DisconnectReason.DisconnectRequested ∧
     (session0Active.disconnect DisconnectReason.DisconnectRequested).disconnectPacketAttempts =
        session0Active.disconnectPacketAttempts + 1 ∧
     (session0Active.disconnect DisconnectReason.DisconnectRequested).closeScheduled = true ∧
     (((session0Active.disconnect DisconnectReason.DisconnectRequested).drop
          DisconnectReason.TCPError).drop DisconnectReason.TCPError).dropCount =
        session0Active.dropCount + 1) :=
  ⟨by decide, by decide, by decide,
   claim_C3 session0Active sessionDropped DisconnectReason.ClientQuit
     DisconnectReason.DisconnectRequested DisconnectReason.TCPError DisconnectReason.TCPError
     (by decide) (by decide) (by decide)⟩

/-- C4: the dropped flag is monotonic — once `m_dropped` is true, no session
operation resets it, and a send or read attempted on a dropped session
leaves the session unchanged (nothing queued, nothing buffered or
dispatched). -/
theorem claim_C4 (s : Session) (op : SessionOp) (pid : Nat) (payload bytes : List Nat)
    (h : s.m_dropped = true) :
    (s.applyOp op).m_dropped = true ∧
    s.send pid payload = s ∧
    s.onRead bytes = s := by
  refine ⟨?_, ?_, ?_⟩
  · cases op <;>
      simp only [Session.applyOp, Session.disconnect, Session.drop, Session.send,
        Session.onRead, Session.addRating, Session.registerCapability,
        Session.registerFraming, Session.saveCABaseData, Session.addNote,
        Session.closeSocket, h] <;>
      split <;> simp [h]
  · simp [Session.send, h]
  · simp [Session.onRead, h]

/-- Witness for C4 at `sessionDropped` and the rating operation. -/
theorem claim_C4_witness :
    sessionDropped.m_dropped = true ∧
    ((sessionDropped.applyOp (SessionOp.addRating 1)).m_dropped = true ∧
     sessionDropped.send 3 [1, 2] = sessionDropped ∧
     sessionDropped.onRead [9] = sessionDropped) :=
  ⟨by decide, claim_C4 sessionDropped (SessionOp.addRating 1) 3 [1, 2] [9] (by decide)⟩

/-- `insertCap` stores the new handler under the inserted key. -/
theorem lookupCap_insertCap (desc : CapDesc) (c : Capability)
    (l : List (CapDesc × Capability)) :
    lookupCap desc (insertCap desc c l) = some c := by
  induction l with
  | nil => simp [insertCap, lookupCap]
  | cons p rest ih =>
    obtain ⟨d, c0⟩ := p
    by_cases hd : d = desc <;> simp [insertCap, lookupCap, hd, ih]

/-- `insertCap` into a table holding at most one entry under the key leaves
exactly one entry under the key. -/
theorem countKey_insertCap (desc : CapDesc) (c : Capability)
    (l : List (CapDesc × Capability)) (h : countKey desc l ≤ 1) :
    countKey desc (insertCap desc c l) = 1 := by
  induction l with
  | nil => simp [insertCap, countKey]
  | cons p rest ih =>
    obtain ⟨d, c0⟩ := p
    by_cases hd : d = desc
    · subst hd
      simp [countKey] at h
      have h0 : countKey d rest = 0 := by omega
      simp [insertCap, countKey, h0]
    · simp only [countKey, if_neg hd, Nat.zero_add] at h
      simp [insertCap, countKey, hd, ih h]

/-- C5 counterexample: `sessionWithEth` stores under descriptor
`("eth", 1)` a handler whose dynamic type tag is `0`; requesting an
incompatible handler type (tag `1`) under the same descriptor does NOT
yield null — `std::static_pointer_cast` performs no runtime type check, so
the stored handler comes back as-is. -/
theorem claim_C5_counterexample :
    capabilityFromSession 1 "eth" 1 sessionWithEth = some ⟨0, 0⟩ ∧
    capabilityFromSession 1 "eth" 1 sessionWithEth ≠ none := by
  decide

/-- C5 amended: `capabilityFromSession` lets no exception propagate and
returns exactly the handler stored under the requested `(name, version)`
descriptor, regardless of the requested handler type; it returns null
exactly when no handler is registered under that descriptor (in particular
for a correct name with a wrong version) — a type-incompatible handler
under a matching descriptor is returned unchecked, not turned into null. -/
theorem claim_C5 (reqTag reqVersion : Nat) (reqName : String) (s : Session) :
    capabilityFromSession reqTag reqName reqVersion s =
      lookupCap (reqName, reqVersion) s.capabilities ∧
    (capabilityFromSession reqTag reqName reqVersion s = none ↔
      lookupCap (reqName, reqVersion) s.capabilities = none) := by
  cases h : lookupCap (reqName, reqVersion) s.capabilities <;>
    simp [capabilityFromSession, h]

/-- C6: ratings are purely additive and unbounded — two successive
`addRating` calls add their deltas to the stored score, and
`addRating(+5)` then `addRating(-2)` from rating 0 yields `rating() == 3`. -/
theorem claim_C6 (s : Session) (d1 d2 : Int) :
    ((s.addRating d1).addRating d2).rating = s.rating + d1 + d2 ∧
    ((session0.addRating 5).addRating (-2)).rating = 3 := by
  exact ⟨rfl, by decide⟩

/-- C7: re-registering a capability under an already-present descriptor
replaces the prior handler without raising, and the table afterwards holds
exactly one entry for that descriptor. -/
theorem claim_C7 (s : Session) (desc : CapDesc) (c0 c : Capability)
    (h : countKey desc s.m_capabilities ≤ 1) :
    lookupCap desc (s.registerCapability desc c).capabilities = some c ∧
    countKey desc (s.registerCapability desc c).capabilities = 1 ∧
    lookupCap desc
      ((s.registerCapability desc c0).registerCapability desc c).capabilities = some c ∧
    countKey desc
      ((s.registerCapability desc c0).registerCapability desc c).capabilities = 1 := by
  refine ⟨?_, ?_, ?_, ?_⟩
  · exact lookupCap_insertCap desc c s.m_capabilities
  · exact countKey_insertCap desc c s.m_capabilities h
  · exact lookupCap_insertCap desc c (insertCap desc c0 s.m_capabilities)
  · exact countKey_insertCap desc c (insertCap desc c0 s.m_capabilities)
      (by rw [countKey_insertCap desc c0 s.m_capabilities h])

/-- Witness for C7 at `session0` (empty capability table) and descriptor
`("eth", 1)`. -/
theorem claim_C7_witness :
    countKey ("eth", 1) session0.m_capabilities ≤ 1 ∧
    (lookupCap ("eth", 1) (session0.registerCapability ("eth", 1) ⟨1, 5⟩).capabilities =
        some ⟨1, 5⟩ ∧
     countKey ("eth", 1) (session0.registerCapability ("eth", 1) ⟨1, 5⟩).capabilities = 1 ∧
     lookupCap ("eth", 1)
        ((session0.registerCapability ("eth", 1) ⟨0, 0⟩).registerCapability
          ("eth", 1) ⟨1, 5⟩).capabilities = some ⟨1, 5⟩ ∧
     countKey ("eth", 1)
        ((session0.registerCapability ("eth", 1) ⟨0, 0⟩).registerCapability
          ("eth", 1) ⟨1, 5⟩).capabilities = 1) :=
  ⟨by decide, claim_C7 session0 ("eth", 1) ⟨0, 0⟩ ⟨1, 5⟩ (by decide)⟩

/-- C9: the custom auth-data slot starts out null on every freshly
constructed session and, after `saveCABaseData(p)`, `getCABaseData()`
returns exactly `p`. -/
theorem claim_C9 (sock : RLPXSocketApi) (info : PeerSessionInfo) (s : Session) (p : Nat) :
    (mkSession sock info).getCABaseData = none ∧
    (s.saveCABaseData p).getCABaseData = some p :=
  ⟨rfl, rfl⟩

/-- C10: `isConnected()` reflects only the socket's state — it equals
`m_socket->isConnected()`, is unchanged by setting the dropped flag, and a
dropped session whose socket is still connected reports `true`. -/
theorem claim_C10 (s : Session) :
    s.isConnected = s.m_socket.isConnected ∧
    Session.isConnected { s with m_dropped := true } = s.isConnected ∧
    sessionDropped.isConnected = true :=
  ⟨rfl, rfl, rfl⟩

end P2P
